import Mathlib

/-!
Shallow embedding of the splice-sheet generator (src/Index.js).

The source file contains two near-duplicate implementations of the
`SpliceSheetGenerator` class; where they differ (the cells emitted for a
cable whose capacity a port exceeds, and the header's second column label)
both are embedded, with suffixes `V1` and `V2` in source order.
Machine numbers in the source are JS numbers used only at nonnegative
integer values on the paths modelled here; they are embedded as `Nat`.
-/

/-- A spreadsheet cell: a JS number, a JS string, `null`, or `undefined`. -/
inductive Cell where
  | num (n : Nat)
  | str (s : String)
  | null
  | undef
  deriving DecidableEq, Repr

/-- `{ name, fiberCount }` (src/Index.js, cable entries). -/
structure CableBundle where
  name : String
  fiberCount : Nat
  deriving DecidableEq, Repr

/-- `{ mst, address, sheet, terminal }`; `sheet` and `terminal` are optional
(JS `undefined` is `none`); an absent `mst`/`address` is modelled as `""`
(both are falsy in JS). -/
structure AddressRecord where
  mst : String
  address : String
  sheet : Option Nat
  terminal : Option String
  deriving DecidableEq, Repr

/-- The input object destructured at the top of `generateSpliceSheet`. -/
structure SpliceConfig where
  ports : Nat
  mainCableName : String
  cables : List CableBundle
  addresses : List AddressRecord
  deriving DecidableEq, Repr

/-- `BUFFER_COLORS` (src/Index.js line 10). -/
def BUFFER_COLORS : List String :=
  ["BL", "OR", "GR", "BR", "SL", "WH", "RD", "BK", "YL", "VT", "RS", "AQ"]

/-- `FIBER_COLORS` (src/Index.js line 11). -/
def FIBER_COLORS : List String :=
  ["bl", "or", "gr", "br", "sl", "wh", "rd", "bk", "yl", "vt", "rs", "aq"]

/-- Result record of `calculateFiberPosition`; the colors are `Option`
because JS array indexing yields `undefined` out of range. -/
structure FiberPosition where
  bufferTube : Nat
  bufferColor : Option String
  fiberNumber : Nat
  fiberColor : Option String
  deriving DecidableEq, Repr

/-- `calculateFiberPosition(fiberNumber, fibersPerTube = 12)`
(src/Index.js lines 41-51; identical in both implementations). -/
def calculateFiberPosition (fiberNumber : Nat) (fibersPerTube : Nat := 12) :
    FiberPosition :=
  let bufferTubeNumber := (fiberNumber - 1) / fibersPerTube + 1
  let fiberInTube := (fiberNumber - 1) % fibersPerTube + 1
  { bufferTube := bufferTubeNumber
    bufferColor := BUFFER_COLORS[(bufferTubeNumber - 1) % BUFFER_COLORS.length]?
    fiberNumber := fiberInTube
    fiberColor := FIBER_COLORS[(fiberInTube - 1) % FIBER_COLORS.length]? }

/-- JS array access as a cell: in-range values are strings here, out of
range gives `undefined`. -/
def cellOfOpt : Option String → Cell
  | some s => Cell.str s
  | none => Cell.undef

/-- JS truthiness of an optional number field (`undefined` and `0` are
falsy). -/
def numTruthy : Option Nat → Bool
  | none => false
  | some n => n != 0

/-- JS truthiness of an optional string field (`undefined` and `""` are
falsy). -/
def strTruthy : Option String → Bool
  | none => false
  | some s => s != ""

/-- The six cells pushed per cable for one port, first implementation
(src/Index.js lines 74-89): `port, cable.name, bufferTube, bufferColor,
fiberNumber, fiberColor` when `port <= cable.fiberCount`, else
`port, cable.name, null, null, null, null`. -/
def cableCellsV1 (port : Nat) (cable : CableBundle) : List Cell :=
  if port ≤ cable.fiberCount then
    let fiberPos := calculateFiberPosition port
    [Cell.num port, Cell.str cable.name, Cell.num fiberPos.bufferTube,
      cellOfOpt fiberPos.bufferColor, Cell.num fiberPos.fiberNumber,
      cellOfOpt fiberPos.fiberColor]
  else
    [Cell.num port, Cell.str cable.name, Cell.null, Cell.null, Cell.null, Cell.null]

/-- The six cells pushed per cable for one port, second implementation
(src/Index.js lines 421-436): the out-of-capacity branch pushes
`'', cable.name, '', '', '', ''`. -/
def cableCellsV2 (port : Nat) (cable : CableBundle) : List Cell :=
  if port ≤ cable.fiberCount then
    let fiberPos := calculateFiberPosition port
    [Cell.num port, Cell.str cable.name, Cell.num fiberPos.bufferTube,
      cellOfOpt fiberPos.bufferColor, Cell.num fiberPos.fiberNumber,
      cellOfOpt fiberPos.fiberColor]
  else
    [Cell.str "", Cell.str cable.name, Cell.str "", Cell.str "", Cell.str "", Cell.str ""]

/-- The MST/address cells pushed for one port together with the address
cursor after the port (src/Index.js lines 91-111 and 438-458; the two
implementations differ only in `mst || ''` / `address || ''`, which is the
identity on the string model). The JS guard
`addressIndex < addresses.length - 1` is on JS numbers, where
`length - 1` can be `-1`; it is embedded as `addressIndex + 1 < length`. -/
def addressCells (addresses : List AddressRecord) (addressIndex : Nat)
    (port : Nat) : List Cell × Nat :=
  match addresses[addressIndex]? with
  | some addressInfo =>
      let cells := [Cell.str addressInfo.mst, Cell.str addressInfo.address]
        ++ (if numTruthy addressInfo.sheet then
              [Cell.str ("SHEET # " ++ toString (addressInfo.sheet.getD 0))]
            else [])
        ++ (if strTruthy addressInfo.terminal then
              [Cell.str (addressInfo.terminal.getD "")]
            else [])
      let newIndex :=
        if port % 4 = 0 ∧ addressIndex + 1 < addresses.length then
          addressIndex + 1
        else addressIndex
      (cells, newIndex)
  | none => ([Cell.str "", Cell.str "Unused"], addressIndex)

/-- One data row of the first implementation, with the cursor after it. -/
def dataRowV1 (mainCableName : String) (cables : List CableBundle)
    (addresses : List AddressRecord) (addressIndex port : Nat) :
    List Cell × Nat :=
  let addr := addressCells addresses addressIndex port
  ([Cell.num port, Cell.str mainCableName]
      ++ cables.flatMap (cableCellsV1 port) ++ addr.1,
    addr.2)

/-- One data row of the second implementation, with the cursor after it. -/
def dataRowV2 (mainCableName : String) (cables : List CableBundle)
    (addresses : List AddressRecord) (addressIndex port : Nat) :
    List Cell × Nat :=
  let addr := addressCells addresses addressIndex port
  ([Cell.num port, Cell.str mainCableName]
      ++ cables.flatMap (cableCellsV2 port) ++ addr.1,
    addr.2)

/-- The data rows of the first implementation's `for` loop over a list of
ports, threading the address cursor. -/
def rowsFromV1 (mainCableName : String) (cables : List CableBundle)
    (addresses : List AddressRecord) (addressIndex : Nat) :
    List Nat → List (List Cell)
  | [] => []
  | port :: ports =>
      let r := dataRowV1 mainCableName cables addresses addressIndex port
      r.1 :: rowsFromV1 mainCableName cables addresses r.2 ports

/-- The data rows of the second implementation's `for` loop. -/
def rowsFromV2 (mainCableName : String) (cables : List CableBundle)
    (addresses : List AddressRecord) (addressIndex : Nat) :
    List Nat → List (List Cell)
  | [] => []
  | port :: ports =>
      let r := dataRowV2 mainCableName cables addresses addressIndex port
      r.1 :: rowsFromV2 mainCableName cables addresses r.2 ports

/-- `generateHeaders(cables)`, first implementation (src/Index.js
lines 120-129). -/
def generateHeadersV1 (cables : List CableBundle) : List Cell :=
  [Cell.str "Port #", Cell.str "Cable Name"]
    ++ cables.flatMap (fun _ =>
        [Cell.str "Port #", Cell.str "Cable", Cell.str "B#", Cell.str "(B)",
          Cell.str "F#", Cell.str "(F)"])
    ++ [Cell.str "MST", Cell.str "Address"]

/-- `generateHeaders(cables)`, second implementation (src/Index.js
lines 466-476); only the second label differs. -/
def generateHeadersV2 (cables : List CableBundle) : List Cell :=
  [Cell.str "Port #", Cell.str "Main Cable"]
    ++ cables.flatMap (fun _ =>
        [Cell.str "Port #", Cell.str "Cable", Cell.str "B#", Cell.str "(B)",
          Cell.str "F#", Cell.str "(F)"])
    ++ [Cell.str "MST", Cell.str "Address"]

/-- `generateSpliceSheet(inputData)`, first implementation (src/Index.js
lines 54-117): header row, then one row per port `1..ports` with the
address cursor starting at `0`. -/
def generateSpliceSheetV1 (inputData : SpliceConfig) : List (List Cell) :=
  generateHeadersV1 inputData.cables
    :: rowsFromV1 inputData.mainCableName inputData.cables inputData.addresses 0
        (List.range' 1 inputData.ports)

/-- `generateSpliceSheet(inputData)`, second implementation (src/Index.js
lines 401-464). -/
def generateSpliceSheetV2 (inputData : SpliceConfig) : List (List Cell) :=
  generateHeadersV2 inputData.cables
    :: rowsFromV2 inputData.mainCableName inputData.cables inputData.addresses 0
        (List.range' 1 inputData.ports)

/-! ### General lemmas about the embedded operations -/

theorem cableCellsV1_length (port : Nat) (cable : CableBundle) :
    (cableCellsV1 port cable).length = 6 := by
  unfold cableCellsV1; split <;> rfl

theorem cableCellsV2_length (port : Nat) (cable : CableBundle) :
    (cableCellsV2 port cable).length = 6 := by
  unfold cableCellsV2; split <;> rfl

theorem length_flatMap_six {α : Type} (f : α → List Cell)
    (hf : ∀ a, (f a).length = 6) :
    ∀ l : List α, (l.flatMap f).length = 6 * l.length
  | [] => rfl
  | a :: l => by
      rw [List.flatMap_cons, List.length_append, hf, length_flatMap_six f hf l,
        List.length_cons]
      omega

/-- The cursor returned by `addressCells`: it advances exactly on ports
divisible by 4 while at least one record remains after the current one. -/
theorem addressCells_cursor (addresses : List AddressRecord) (i p : Nat) :
    (addressCells addresses i p).2 =
      if p % 4 = 0 ∧ i + 1 < addresses.length then i + 1 else i := by
  unfold addressCells
  cases h : addresses[i]? with
  | some a => rfl
  | none =>
      have hlen : addresses.length ≤ i := List.getElem?_eq_none_iff.mp h
      show i = if p % 4 = 0 ∧ i + 1 < addresses.length then i + 1 else i
      rw [if_neg (by omega)]

/-- Every row the first implementation's loop produces is a `dataRowV1` for
one of the ports of the list. -/
theorem mem_rowsFromV1 (m : String) (cables : List CableBundle)
    (addresses : List AddressRecord) :
    ∀ (ps : List Nat) (i : Nat) (row : List Cell),
      row ∈ rowsFromV1 m cables addresses i ps →
      ∃ p ∈ ps, ∃ j, row = (dataRowV1 m cables addresses j p).1
  | [], _, row, h => absurd h (List.not_mem_nil row)
  | p :: ps, i, row, h => by
      simp only [rowsFromV1] at h
      rcases List.mem_cons.mp h with h1 | h2
      · exact ⟨p, List.mem_cons_self p ps, i, h1⟩
      · obtain ⟨q, hq, j, hrow⟩ := mem_rowsFromV1 m cables addresses ps _ row h2
        exact ⟨q, List.mem_cons_of_mem p hq, j, hrow⟩

/-- Every row the second implementation's loop produces is a `dataRowV2`
for one of the ports of the list. -/
theorem mem_rowsFromV2 (m : String) (cables : List CableBundle)
    (addresses : List AddressRecord) :
    ∀ (ps : List Nat) (i : Nat) (row : List Cell),
      row ∈ rowsFromV2 m cables addresses i ps →
      ∃ p ∈ ps, ∃ j, row = (dataRowV2 m cables addresses j p).1
  | [], _, row, h => absurd h (List.not_mem_nil row)
  | p :: ps, i, row, h => by
      simp only [rowsFromV2] at h
      rcases List.mem_cons.mp h with h1 | h2
      · exact ⟨p, List.mem_cons_self p ps, i, h1⟩
      · obtain ⟨q, hq, j, hrow⟩ := mem_rowsFromV2 m cables addresses ps _ row h2
        exact ⟨q, List.mem_cons_of_mem p hq, j, hrow⟩

/-- With at least one address record, the cursor threaded through the
loop is a function of the port alone: before port `s + 1` it equals
`min (s / 4) (length - 1)`, so the whole run is a `map` over the ports. -/
theorem rowsFromV2_cursor_run (m : String) (cables : List CableBundle)
    (addresses : List AddressRecord) (hlen : 1 ≤ addresses.length) :
    ∀ (l s : Nat),
      rowsFromV2 m cables addresses (min (s / 4) (addresses.length - 1))
        (List.range' (s + 1) l) =
      (List.range' (s + 1) l).map (fun p =>
        (dataRowV2 m cables addresses
          (min ((p - 1) / 4) (addresses.length - 1)) p).1)
  | 0, _ => rfl
  | l + 1, s => by
      rw [List.range'_succ, List.map_cons]
      simp only [rowsFromV2]
      have hstep :
          (dataRowV2 m cables addresses (min (s / 4) (addresses.length - 1))
            (s + 1)).2 = min ((s + 1) / 4) (addresses.length - 1) := by
        show (addressCells addresses (min (s / 4) (addresses.length - 1))
          (s + 1)).2 = _
        rw [addressCells_cursor]
        split <;> omega
      rw [hstep, rowsFromV2_cursor_run m cables addresses hlen l (s + 1),
        Nat.add_sub_cancel]

/-! ### Claims -/

/-- C1: for every positive `index` and `fibersPerTube = 12`, the Resolver
returns `bufferTube = (index-1)/12 + 1`, `fiberNumber = (index-1) % 12 + 1`,
`bufferColor = BUFFER_COLORS[(bufferTube-1) % 12]` and `fiberColor =
FIBER_COLORS[(fiberNumber-1) % 12]` over the fixed 12-entry TIA-598-C
cycles; in particular index 13 gives tube 2 / "OR" / fiber 1 / "bl" and
index 144 gives tube 12 / "AQ" / fiber 12 / "aq". -/
theorem C1_resolver_formula (index : Nat) (h : 1 ≤ index) :
    calculateFiberPosition index 12 =
      { bufferTube := (index - 1) / 12 + 1
        bufferColor := BUFFER_COLORS[((index - 1) / 12 + 1 - 1) % 12]?
        fiberNumber := (index - 1) % 12 + 1
        fiberColor := FIBER_COLORS[((index - 1) % 12 + 1 - 1) % 12]? } ∧
    calculateFiberPosition 13 12 =
      { bufferTube := 2, bufferColor := some "OR", fiberNumber := 1,
        fiberColor := some "bl" } ∧
    calculateFiberPosition 144 12 =
      { bufferTube := 12, bufferColor := some "AQ", fiberNumber := 12,
        fiberColor := some "aq" } :=
  ⟨rfl, by decide, by decide⟩

/-- Witness for C1 at `index = 13`. -/
theorem C1_resolver_formula_witness :
    calculateFiberPosition 13 12 =
      { bufferTube := 2, bufferColor := some "OR", fiberNumber := 1,
        fiberColor := some "bl" } :=
  (C1_resolver_formula 13 (by decide)).2.1

/-- C8: for `index ≥ 1` and `fibersPerTube ≥ 1` the Resolver is total:
`fiberNumber` lies in `[1, fibersPerTube]` and both color lookups hit the
12-entry cycles in bounds (the out-of-range `undefined` branch of JS array
indexing is unreachable). -/
theorem C8_resolver_total (index fibersPerTube : Nat) (hi : 1 ≤ index)
    (hf : 1 ≤ fibersPerTube) :
    1 ≤ (calculateFiberPosition index fibersPerTube).fiberNumber ∧
    (calculateFiberPosition index fibersPerTube).fiberNumber ≤ fibersPerTube ∧
    (∃ s, (calculateFiberPosition index fibersPerTube).bufferColor = some s) ∧
    (∃ s, (calculateFiberPosition index fibersPerTube).fiberColor = some s) := by
  refine ⟨Nat.le_add_left 1 _, ?_, ?_, ?_⟩
  · show (index - 1) % fibersPerTube + 1 ≤ fibersPerTube
    have := Nat.mod_lt (index - 1) (y := fibersPerTube) (by omega)
    omega
  · have hk : ((index - 1) / fibersPerTube + 1 - 1) % BUFFER_COLORS.length <
        BUFFER_COLORS.length := Nat.mod_lt _ (by decide)
    exact ⟨_, List.getElem?_eq_getElem hk⟩
  · have hk : ((index - 1) % fibersPerTube + 1 - 1) % FIBER_COLORS.length <
        FIBER_COLORS.length := Nat.mod_lt _ (by decide)
    exact ⟨_, List.getElem?_eq_getElem hk⟩

/-- Witness for C8 at `index = 26`, `fibersPerTube = 12`. -/
theorem C8_resolver_total_witness :
    1 ≤ (calculateFiberPosition 26 12).fiberNumber ∧
    (calculateFiberPosition 26 12).fiberNumber ≤ 12 ∧
    (∃ s, (calculateFiberPosition 26 12).bufferColor = some s) ∧
    (∃ s, (calculateFiberPosition 26 12).fiberColor = some s) :=
  C8_resolver_total 26 12 (by decide) (by decide)

/-- C6 counterexample: `fiberNumber` does not increase monotonically with
the index — with `fibersPerTube = 12` it drops from 12 at index 12 to 1 at
index 13. -/
theorem C6_monotone_cex :
    (12 : Nat) ≤ 13 ∧
    (calculateFiberPosition 13 12).fiberNumber <
      (calculateFiberPosition 12 12).fiberNumber := by decide

/-- C6 (amended): for `index ≥ 1` and `fibersPerTube ≥ 1`, `bufferTube` is
monotone nondecreasing in the index and the pair
`(bufferTube, fiberNumber)` is strictly increasing lexicographically
(so `fiberNumber` alone wraps at tube boundaries); the 12-entry cycle
length enters only the color selection. -/
theorem C6_position_monotone (fibersPerTube i j : Nat) (hf : 1 ≤ fibersPerTube)
    (hi : 1 ≤ i) (hij : i ≤ j) :
    (calculateFiberPosition i fibersPerTube).bufferTube ≤
      (calculateFiberPosition j fibersPerTube).bufferTube ∧
    (i < j →
      (calculateFiberPosition i fibersPerTube).bufferTube <
          (calculateFiberPosition j fibersPerTube).bufferTube ∨
        ((calculateFiberPosition i fibersPerTube).bufferTube =
            (calculateFiberPosition j fibersPerTube).bufferTube ∧
          (calculateFiberPosition i fibersPerTube).fiberNumber <
            (calculateFiberPosition j fibersPerTube).fiberNumber)) ∧
    (calculateFiberPosition i fibersPerTube).bufferColor =
      BUFFER_COLORS[((calculateFiberPosition i fibersPerTube).bufferTube - 1) % 12]? ∧
    (calculateFiberPosition i fibersPerTube).fiberColor =
      FIBER_COLORS[((calculateFiberPosition i fibersPerTube).fiberNumber - 1) % 12]? := by
  refine ⟨?_, ?_, rfl, rfl⟩
  · show (i - 1) / fibersPerTube + 1 ≤ (j - 1) / fibersPerTube + 1
    have := Nat.div_le_div_right (c := fibersPerTube)
      (Nat.sub_le_sub_right hij 1)
    omega
  · intro hlt
    have hab : i - 1 < j - 1 := by omega
    have hd : (i - 1) / fibersPerTube ≤ (j - 1) / fibersPerTube :=
      Nat.div_le_div_right (by omega)
    rcases Nat.lt_or_ge ((i - 1) / fibersPerTube) ((j - 1) / fibersPerTube)
      with hdlt | hdge
    · left
      show (i - 1) / fibersPerTube + 1 < (j - 1) / fibersPerTube + 1
      omega
    · right
      have heq : (i - 1) / fibersPerTube = (j - 1) / fibersPerTube :=
        Nat.le_antisymm hd hdge
      refine ⟨?_, ?_⟩
      · show (i - 1) / fibersPerTube + 1 = (j - 1) / fibersPerTube + 1
        omega
      · show (i - 1) % fibersPerTube + 1 < (j - 1) % fibersPerTube + 1
        have h1 := Nat.div_add_mod (i - 1) fibersPerTube
        have h2 := Nat.div_add_mod (j - 1) fibersPerTube
        rw [heq] at h1
        generalize hK : fibersPerTube * ((j - 1) / fibersPerTube) = K at h1 h2
        generalize ha : (i - 1) % fibersPerTube = a at h1 ⊢
        generalize hb : (j - 1) % fibersPerTube = b at h2 ⊢
        omega

/-- Witness for C6 (amended) at `i = 12`, `j = 13`, `fibersPerTube = 12`. -/
theorem C6_position_monotone_witness :
    (calculateFiberPosition 12 12).bufferTube ≤
      (calculateFiberPosition 13 12).bufferTube ∧
    (12 < 13 →
      (calculateFiberPosition 12 12).bufferTube <
          (calculateFiberPosition 13 12).bufferTube ∨
        ((calculateFiberPosition 12 12).bufferTube =
            (calculateFiberPosition 13 12).bufferTube ∧
          (calculateFiberPosition 12 12).fiberNumber <
            (calculateFiberPosition 13 12).fiberNumber)) ∧
    (calculateFiberPosition 12 12).bufferColor =
      BUFFER_COLORS[((calculateFiberPosition 12 12).bufferTube - 1) % 12]? ∧
    (calculateFiberPosition 12 12).fiberColor =
      FIBER_COLORS[((calculateFiberPosition 12 12).fiberNumber - 1) % 12]? :=
  C6_position_monotone 12 12 13 (by decide) (by decide) (by decide)

/-- C7: with `ports = 0` both implementations of `generateSpliceSheet`
return exactly the one-row table `[header]`, for any cables and
addresses. -/
theorem C7_zero_ports (mainCableName : String) (cables : List CableBundle)
    (addresses : List AddressRecord) :
    generateSpliceSheetV1 ⟨0, mainCableName, cables, addresses⟩ =
      [generateHeadersV1 cables] ∧
    generateSpliceSheetV2 ⟨0, mainCableName, cables, addresses⟩ =
      [generateHeadersV2 cables] ∧
    (generateSpliceSheetV1 ⟨0, mainCableName, cables, addresses⟩).length = 1 ∧
    (generateSpliceSheetV2 ⟨0, mainCableName, cables, addresses⟩).length = 1 :=
  ⟨rfl, rfl, rfl, rfl⟩

/-- C3 counterexample: in the first implementation, the row for a port
exceeding a cable's capacity still carries the port number in the
per-cable port cell (here `Cell.num 1` at cell 2 of the data row for
port 1 with a capacity-0 cable), so that cell is not blank. -/
theorem C3_overflow_cex :
    (generateSpliceSheetV1 ⟨1, "M", [⟨"c", 0⟩], []⟩)[1]? =
      some [Cell.num 1, Cell.str "M", Cell.num 1, Cell.str "c", Cell.null,
        Cell.null, Cell.null, Cell.null, Cell.str "", Cell.str "Unused"] ∧
    Cell.num 1 ≠ Cell.str "" ∧ Cell.num 1 ≠ Cell.null ∧
    Cell.num 1 ≠ Cell.undef := by decide

/-- C3 (amended): for a port beyond a cable's capacity, the four
fiber-position cells are blank in both implementations (`null` in the
first, `''` in the second); the per-cable port-number cell is blank only
in the second implementation — the first still emits the port number. -/
theorem C3_overflow_cells (port : Nat) (cable : CableBundle)
    (h : cable.fiberCount < port) :
    cableCellsV2 port cable =
      [Cell.str "", Cell.str cable.name, Cell.str "", Cell.str "",
        Cell.str "", Cell.str ""] ∧
    cableCellsV1 port cable =
      [Cell.num port, Cell.str cable.name, Cell.null, Cell.null, Cell.null,
        Cell.null] := by
  have h' : ¬ port ≤ cable.fiberCount := by omega
  constructor
  · unfold cableCellsV2; rw [if_neg h']
  · unfold cableCellsV1; rw [if_neg h']

/-- Witness for C3 (amended) at port 2 against a capacity-1 cable. -/
theorem C3_overflow_cells_witness :
    cableCellsV2 2 ⟨"48F(3)", 1⟩ =
      [Cell.str "", Cell.str "48F(3)", Cell.str "", Cell.str "",
        Cell.str "", Cell.str ""] ∧
    cableCellsV1 2 ⟨"48F(3)", 1⟩ =
      [Cell.num 2, Cell.str "48F(3)", Cell.null, Cell.null, Cell.null,
        Cell.null] :=
  C3_overflow_cells 2 ⟨"48F(3)", 1⟩ (by decide)

/-- C4 counterexample: with one existing record whose address is empty,
the emitted address cell is the empty string, not the literal
`"Unused"`. -/
theorem C4_unused_cex :
    (generateSpliceSheetV2 ⟨1, "X", [], [⟨"M", "", none, none⟩]⟩)[1]? =
      some [Cell.num 1, Cell.str "X", Cell.str "M", Cell.str ""] ∧
    Cell.str "" ≠ Cell.str "Unused" := by decide

/-- C4 (amended): while the cursor points at an existing record, build
emits that record's `mst` and `address` verbatim (an absent/empty address
gives an empty cell, never `"Unused"`), plus the conditional sheet and
terminal cells; the literal `"Unused"` is emitted only once the cursor is
exhausted. -/
theorem C4_address_cells_verbatim (addresses : List AddressRecord)
    (addressIndex port : Nat) (a : AddressRecord)
    (h : addresses[addressIndex]? = some a) :
    (addressCells addresses addressIndex port).1 =
      [Cell.str a.mst, Cell.str a.address]
        ++ (if numTruthy a.sheet then
              [Cell.str ("SHEET # " ++ toString (a.sheet.getD 0))]
            else [])
        ++ (if strTruthy a.terminal then
              [Cell.str (a.terminal.getD "")]
            else []) ∧
    (∀ i p, addresses.length ≤ i →
      (addressCells addresses i p).1 = [Cell.str "", Cell.str "Unused"]) := by
  constructor
  · unfold addressCells; rw [h]
  · intro i p hi
    unfold addressCells
    rw [List.getElem?_eq_none hi]

/-- Witness for C4 (amended) at a one-record list with an empty address. -/
theorem C4_address_cells_verbatim_witness :
    (addressCells [⟨"M", "", none, none⟩] 0 1).1 =
      [Cell.str "M", Cell.str ""]
        ++ (if numTruthy (none : Option Nat) then
              [Cell.str ("SHEET # " ++ toString ((none : Option Nat).getD 0))]
            else [])
        ++ (if strTruthy (none : Option String) then
              [Cell.str ((none : Option String).getD "")]
            else []) ∧
    (∀ i p, ([⟨"M", "", none, none⟩] : List AddressRecord).length ≤ i →
      (addressCells [⟨"M", "", none, none⟩] i p).1 =
        [Cell.str "", Cell.str "Unused"]) :=
  C4_address_cells_verbatim [⟨"M", "", none, none⟩] 0 1 ⟨"M", "", none, none⟩
    (by decide)

/-- C2: the address cursor starts at 0 and after port `p` it advances
exactly when `p % 4 = 0` and at least one record remains after the current
one; with `ports = 8`, one capacity-8 cable and two records, the table is
the header followed by rows built from record index 0 at ports 1-4 and
record index 1 at ports 5-8, in both implementations. -/
theorem C2_cursor_advancement (addresses : List AddressRecord)
    (addressIndex port : Nat) (h : addressIndex < addresses.length)
    (m name : String) (a0 a1 : AddressRecord) :
    (addressCells addresses addressIndex port).2 =
      (if port % 4 = 0 ∧ addressIndex + 1 < addresses.length then
        addressIndex + 1
      else addressIndex) ∧
    generateSpliceSheetV1 ⟨8, m, [⟨name, 8⟩], [a0, a1]⟩ =
      generateHeadersV1 [⟨name, 8⟩] ::
        [(dataRowV1 m [⟨name, 8⟩] [a0, a1] 0 1).1,
          (dataRowV1 m [⟨name, 8⟩] [a0, a1] 0 2).1,
          (dataRowV1 m [⟨name, 8⟩] [a0, a1] 0 3).1,
          (dataRowV1 m [⟨name, 8⟩] [a0, a1] 0 4).1,
          (dataRowV1 m [⟨name, 8⟩] [a0, a1] 1 5).1,
          (dataRowV1 m [⟨name, 8⟩] [a0, a1] 1 6).1,
          (dataRowV1 m [⟨name, 8⟩] [a0, a1] 1 7).1,
          (dataRowV1 m [⟨name, 8⟩] [a0, a1] 1 8).1] ∧
    generateSpliceSheetV2 ⟨8, m, [⟨name, 8⟩], [a0, a1]⟩ =
      generateHeadersV2 [⟨name, 8⟩] ::
        [(dataRowV2 m [⟨name, 8⟩] [a0, a1] 0 1).1,
          (dataRowV2 m [⟨name, 8⟩] [a0, a1] 0 2).1,
          (dataRowV2 m [⟨name, 8⟩] [a0, a1] 0 3).1,
          (dataRowV2 m [⟨name, 8⟩] [a0, a1] 0 4).1,
          (dataRowV2 m [⟨name, 8⟩] [a0, a1] 1 5).1,
          (dataRowV2 m [⟨name, 8⟩] [a0, a1] 1 6).1,
          (dataRowV2 m [⟨name, 8⟩] [a0, a1] 1 7).1,
          (dataRowV2 m [⟨name, 8⟩] [a0, a1] 1 8).1] :=
  ⟨addressCells_cursor addresses addressIndex port, rfl, rfl⟩

/-- Witness for C2 at a two-record list at port 4. -/
theorem C2_cursor_advancement_witness :
    (addressCells [⟨"m0", "a0", none, none⟩, ⟨"m1", "a1", none, none⟩] 0 4).2
      = 1 := by
  have h := (C2_cursor_advancement
    [⟨"m0", "a0", none, none⟩, ⟨"m1", "a1", none, none⟩] 0 4 (by decide)
    "M" "c" ⟨"m0", "a0", none, none⟩ ⟨"m1", "a1", none, none⟩).1
  rw [h]
  decide

/-- C5: in both implementations every row of the table carries exactly one
six-cell group per cable bundle, in bundle order (the row is the two fixed
cells, then the concatenation of the per-cable six-cell groups over
`cfg.cables`, then the trailing cells); the header row's length is exactly
`2 + 6 * cables.length + 2`. -/
theorem C5_row_structure (cfg : SpliceConfig) :
    (generateHeadersV1 cfg.cables).length = 2 + 6 * cfg.cables.length + 2 ∧
    (generateHeadersV2 cfg.cables).length = 2 + 6 * cfg.cables.length + 2 ∧
    (generateSpliceSheetV1 cfg).head? = some (generateHeadersV1 cfg.cables) ∧
    (generateSpliceSheetV2 cfg).head? = some (generateHeadersV2 cfg.cables) ∧
    (∀ row ∈ (generateSpliceSheetV1 cfg).tail, ∃ p tailCells,
      1 ≤ p ∧ p ≤ cfg.ports ∧
      row = [Cell.num p, Cell.str cfg.mainCableName]
        ++ cfg.cables.flatMap (cableCellsV1 p) ++ tailCells) ∧
    (∀ row ∈ (generateSpliceSheetV2 cfg).tail, ∃ p tailCells,
      1 ≤ p ∧ p ≤ cfg.ports ∧
      row = [Cell.num p, Cell.str cfg.mainCableName]
        ++ cfg.cables.flatMap (cableCellsV2 p) ++ tailCells) ∧
    (∀ p c, (cableCellsV1 p c).length = 6 ∧ (cableCellsV2 p c).length = 6) := by
  refine ⟨?_, ?_, rfl, rfl, ?_, ?_, fun p c =>
    ⟨cableCellsV1_length p c, cableCellsV2_length p c⟩⟩
  · unfold generateHeadersV1
    rw [List.length_append, List.length_append,
      length_flatMap_six (fun _ =>
        [Cell.str "Port #", Cell.str "Cable", Cell.str "B#", Cell.str "(B)",
          Cell.str "F#", Cell.str "(F)"]) (fun _ => rfl) cfg.cables]
    rfl
  · unfold generateHeadersV2
    rw [List.length_append, List.length_append,
      length_flatMap_six (fun _ =>
        [Cell.str "Port #", Cell.str "Cable", Cell.str "B#", Cell.str "(B)",
          Cell.str "F#", Cell.str "(F)"]) (fun _ => rfl) cfg.cables]
    rfl
  · intro row hrow
    obtain ⟨p, hp, j, hrowEq⟩ :=
      mem_rowsFromV1 cfg.mainCableName cfg.cables cfg.addresses
        (List.range' 1 cfg.ports) 0 row hrow
    rw [List.mem_range'_1] at hp
    exact ⟨p, (addressCells cfg.addresses j p).1, hp.1, by omega, hrowEq⟩
  · intro row hrow
    obtain ⟨p, hp, j, hrowEq⟩ :=
      mem_rowsFromV2 cfg.mainCableName cfg.cables cfg.addresses
        (List.range' 1 cfg.ports) 0 row hrow
    rw [List.mem_range'_1] at hp
    exact ⟨p, (addressCells cfg.addresses j p).1, hp.1, by omega, hrowEq⟩

/-- Witness for C5 on a one-port, one-cable config: the single data row
decomposes into the fixed prefix, one six-cell cable group, and the
trailing cells. -/
theorem C5_row_structure_witness :
    ∃ p tailCells, 1 ≤ p ∧ p ≤ 1 ∧
      ([Cell.num 1, Cell.str "M", Cell.num 1, Cell.str "c", Cell.num 1,
        Cell.str "BL", Cell.num 1, Cell.str "bl", Cell.str "",
        Cell.str "Unused"] : List Cell) =
      [Cell.num p, Cell.str "M"]
        ++ ([⟨"c", 4⟩] : List CableBundle).flatMap (cableCellsV1 p)
        ++ tailCells :=
  (C5_row_structure ⟨1, "M", [⟨"c", 4⟩], []⟩).2.2.2.2.1 _ (by decide)

/-- C9: with a non-empty address list, the data row for port `p` is built
with cursor value `min ((p - 1) / 4) (addresses.length - 1)`, which always
points at an existing record — the cursor-exhausted `('', 'Unused')`
branch is unreachable. -/
theorem C9_address_walk (cfg : SpliceConfig) (p : Nat)
    (hne : cfg.addresses ≠ []) (hp1 : 1 ≤ p) (hp2 : p ≤ cfg.ports) :
    (generateSpliceSheetV2 cfg)[p]? =
      some ((dataRowV2 cfg.mainCableName cfg.cables cfg.addresses
        (min ((p - 1) / 4) (cfg.addresses.length - 1)) p).1) ∧
    ∃ a, cfg.addresses[min ((p - 1) / 4) (cfg.addresses.length - 1)]? =
      some a := by
  have hlen : 1 ≤ cfg.addresses.length := List.length_pos.mpr hne
  constructor
  · obtain ⟨k, rfl⟩ : ∃ k, p = k + 1 := ⟨p - 1, by omega⟩
    have hrun := rowsFromV2_cursor_run cfg.mainCableName cfg.cables
      cfg.addresses hlen cfg.ports 0
    have h0 : min (0 / 4) (cfg.addresses.length - 1) = 0 := by omega
    rw [h0, Nat.zero_add] at hrun
    show (generateHeadersV2 cfg.cables ::
      rowsFromV2 cfg.mainCableName cfg.cables cfg.addresses 0
        (List.range' 1 cfg.ports))[k + 1]? = _
    rw [List.getElem?_cons_succ, hrun, List.getElem?_map,
      List.getElem?_range' 1 1 (show k < cfg.ports by omega)]
    have h1 : 1 + 1 * k = k + 1 := by omega
    rw [h1]
    rfl
  · have hmin : min ((p - 1) / 4) (cfg.addresses.length - 1) <
        cfg.addresses.length := by omega
    exact ⟨_, List.getElem?_eq_getElem hmin⟩

/-- Witness for C9 at an 8-port config with two records, port 7. -/
theorem C9_address_walk_witness :
    (generateSpliceSheetV2 ⟨8, "M", [],
        [⟨"m0", "a0", none, none⟩, ⟨"m1", "a1", none, none⟩]⟩)[7]? =
      some ((dataRowV2 "M" []
        [⟨"m0", "a0", none, none⟩, ⟨"m1", "a1", none, none⟩]
        (min ((7 - 1) / 4) (2 - 1)) 7).1) ∧
    ∃ a, ([⟨"m0", "a0", none, none⟩, ⟨"m1", "a1", none, none⟩] :
        List AddressRecord)[min ((7 - 1) / 4) (2 - 1)]? = some a :=
  C9_address_walk
    ⟨8, "M", [], [⟨"m0", "a0", none, none⟩, ⟨"m1", "a1", none, none⟩]⟩ 7
    (by decide) (by decide) (by decide)

/-- C10: with an explicitly empty address list, every data row of both
implementations ends in exactly the two cells `'' , "Unused"` (no sheet or
terminal cell, no synthesized sample records), and has length exactly
`2 + 6 * cables.length + 2`. -/
theorem C10_no_synthesis (mainCableName : String) (cables : List CableBundle)
    (ports : Nat) :
    (∀ row ∈ (generateSpliceSheetV1 ⟨ports, mainCableName, cables, []⟩).tail,
      (∃ p, 1 ≤ p ∧ p ≤ ports ∧
        row = [Cell.num p, Cell.str mainCableName]
          ++ cables.flatMap (cableCellsV1 p)
          ++ [Cell.str "", Cell.str "Unused"]) ∧
      row.length = 2 + 6 * cables.length + 2) ∧
    (∀ row ∈ (generateSpliceSheetV2 ⟨ports, mainCableName, cables, []⟩).tail,
      (∃ p, 1 ≤ p ∧ p ≤ ports ∧
        row = [Cell.num p, Cell.str mainCableName]
          ++ cables.flatMap (cableCellsV2 p)
          ++ [Cell.str "", Cell.str "Unused"]) ∧
      row.length = 2 + 6 * cables.length + 2) := by
  constructor
  · intro row hrow
    obtain ⟨p, hp, j, hrowEq⟩ :=
      mem_rowsFromV1 mainCableName cables [] (List.range' 1 ports) 0 row hrow
    rw [List.mem_range'_1] at hp
    have haddr : (addressCells [] j p).1 = [Cell.str "", Cell.str "Unused"] := by
      unfold addressCells
      rw [List.getElem?_nil]
    have hshape : row = [Cell.num p, Cell.str mainCableName]
        ++ cables.flatMap (cableCellsV1 p)
        ++ [Cell.str "", Cell.str "Unused"] := by
      rw [hrowEq]
      show [Cell.num p, Cell.str mainCableName]
          ++ cables.flatMap (cableCellsV1 p) ++ (addressCells [] j p).1 = _
      rw [haddr]
    refine ⟨⟨p, hp.1, by omega, hshape⟩, ?_⟩
    rw [hshape, List.length_append, List.length_append,
      length_flatMap_six _ (cableCellsV1_length p) cables]
    rfl
  · intro row hrow
    obtain ⟨p, hp, j, hrowEq⟩ :=
      mem_rowsFromV2 mainCableName cables [] (List.range' 1 ports) 0 row hrow
    rw [List.mem_range'_1] at hp
    have haddr : (addressCells [] j p).1 = [Cell.str "", Cell.str "Unused"] := by
      unfold addressCells
      rw [List.getElem?_nil]
    have hshape : row = [Cell.num p, Cell.str mainCableName]
        ++ cables.flatMap (cableCellsV2 p)
        ++ [Cell.str "", Cell.str "Unused"] := by
      rw [hrowEq]
      show [Cell.num p, Cell.str mainCableName]
          ++ cables.flatMap (cableCellsV2 p) ++ (addressCells [] j p).1 = _
      rw [haddr]
    refine ⟨⟨p, hp.1, by omega, hshape⟩, ?_⟩
    rw [hshape, List.length_append, List.length_append,
      length_flatMap_six _ (cableCellsV2_length p) cables]
    rfl

/-- Witness for C10 on a one-port, one-cable (capacity 0) config. -/
theorem C10_no_synthesis_witness :
    (∃ p, 1 ≤ p ∧ p ≤ 1 ∧
      ([Cell.num 1, Cell.str "M", Cell.num 1, Cell.str "c", Cell.null,
        Cell.null, Cell.null, Cell.null, Cell.str "",
        Cell.str "Unused"] : List Cell) =
        [Cell.num p, Cell.str "M"]
          ++ ([⟨"c", 0⟩] : List CableBundle).flatMap (cableCellsV1 p)
          ++ [Cell.str "", Cell.str "Unused"]) ∧
    ([Cell.num 1, Cell.str "M", Cell.num 1, Cell.str "c", Cell.null,
      Cell.null, Cell.null, Cell.null, Cell.str "",
      Cell.str "Unused"] : List Cell).length = 2 + 6 * 1 + 2 :=
  (C10_no_synthesis "M" [⟨"c", 0⟩] 1).1 _ (by decide)
